import Mathlib

set_option autoImplicit false

namespace Rhai

/-- Runtime type identifiers (`std::any::TypeId`).  The string-like types,
the built-in sequence (`Array`), and the key/value map (`Map`) are given
dedicated constructors because `Module::set_fn` and the indexer guards
treat them specially; every other Rust type is `other n`. -/
inductive RTypeId where
  | strRef
  | string
  | immutableString
  | array
  | map
  | int
  | unit
  | other (n : Nat)
  deriving DecidableEq, Repr

/-- `FnNamespace` from `src/module/mod.rs`: the namespace of a function. -/
inductive FnNamespace where
  | Global
  | Internal
  deriving DecidableEq, Repr

/-- `FnNamespace::is_global`. -/
def FnNamespace.is_global : FnNamespace → Bool
  | .Global => true
  | .Internal => false

/-- `FnAccess` (from `crate::ast`): function access mode. -/
inductive FnAccess where
  | Public
  | Private
  deriving DecidableEq, Repr

/-- `FnAccess::is_public`. -/
def FnAccess.is_public : FnAccess → Bool
  | .Public => true
  | .Private => false

/-- The three callable shapes of `CallableFunction` (pure, method, script). -/
inductive CallKind where
  | pureFn
  | methodFn
  | scriptFn
  deriving DecidableEq, Repr

/-- `CallableFunction`: a type-erased callable.  The closure body is opaque to
this development, so it is modelled by an identity tag plus its shape. -/
structure CallableFunction where
  fnId : Nat
  kind : CallKind
  deriving DecidableEq, Repr

/-- `CallableFunction::is_script`. -/
def CallableFunction.is_script (f : CallableFunction) : Bool :=
  match f.kind with
  | .scriptFn => true
  | _ => false

/-- `Dynamic` values are opaque to the module registry; an integer payload
suffices for everything the registry does with them (store, copy, compare). -/
abbrev Dynamic := Int

/-- `IteratorFn` is an opaque function pointer; modelled by an identity tag. -/
abbrev IteratorFn := Nat

/-- Modelled from the spec: the Signature Hasher (`crate::calc_script_fn_hash`,
`crate::calc_native_fn_hash`, `crate::utils::combine_hashes`) is not part of
`src/module/mod.rs`.  The spec requires deterministic non-zero hashes where
distinct (qualifiers, name, arity) resp. (qualifiers, name, argument types)
inputs must produce distinct hashes and the combination operator must keep
distinct inputs distinct, so hashes are modelled symbolically: a hash value is
the tuple of hashed inputs itself, making determinism and collision-freedom
definitional. -/
inductive Hash where
  | script (qualifiers : List String) (name : String) (arity : Nat)
  | native (qualifiers : List String) (name : String) (argTypes : List RTypeId)
  | combined (h1 h2 : Hash)
  deriving DecidableEq, Repr

/-- Modelled from the spec: `crate::calc_script_fn_hash` (script-style hash of
qualifiers + name + arity). -/
def calc_script_fn_hash (qualifiers : List String) (name : String) (arity : Nat) : Hash :=
  Hash.script qualifiers name arity

/-- Modelled from the spec: `crate::calc_native_fn_hash` (native-style hash of
qualifiers + name + concrete argument types). -/
def calc_native_fn_hash (qualifiers : List String) (name : String)
    (argTypes : List RTypeId) : Hash :=
  Hash.native qualifiers name argTypes

/-- Modelled from the spec: `crate::utils::combine_hashes`, the non-commutative
mixing function folding a native-style hash into a script-style hash. -/
def combine_hashes (h1 h2 : Hash) : Hash :=
  Hash.combined h1 h2

/-- Insert-or-replace into an association list: the model of
`HashMap::insert` (an existing key keeps its position, its value is
replaced; a new key is appended). -/
def alInsert {α β : Type} [DecidableEq α] : List (α × β) → α → β → List (α × β)
  | [], k, v => [(k, v)]
  | (k', v') :: rest, k, v =>
    if k' = k then (k, v) :: rest else (k', v') :: alInsert rest k v

/-- Lookup in an association list: the model of `HashMap::get`. -/
def alGet {α β : Type} [DecidableEq α] : List (α × β) → α → Option β
  | [], _ => none
  | (k', v') :: rest, k => if k' = k then some v' else alGet rest k

/-- The model of `HashMap::extend`: insert every entry of `other`,
overwriting on key collision. -/
def alExtend {α β : Type} [DecidableEq α] (self other : List (α × β)) : List (α × β) :=
  other.foldl (fun acc p => alInsert acc p.1 p.2) self

/-- In-place modification of the value at a key, if present: the model of
`HashMap::get_mut` followed by a field write. -/
def alUpdate {α β : Type} [DecidableEq α] : List (α × β) → α → (β → β) → List (α × β)
  | [], _, _ => []
  | (k', v') :: rest, k, f =>
    if k' = k then (k', f v') :: rest else (k', v') :: alUpdate rest k f

/-- `FuncInfo`: one registered function's metadata.  The Rust field
`namespace` is spelled `ns` because `namespace` is a Lean keyword. -/
structure FuncInfo where
  func : CallableFunction
  ns : FnNamespace
  access : FnAccess
  name : String
  params : Nat
  param_types : List RTypeId
  param_names : List String
  deriving DecidableEq, Repr

/-- `ScriptFnDef` (from `crate::ast`), restricted to the fields
`set_script_fn` reads: name, parameter names, access, and the function body
(opaque, an identity tag). -/
structure ScriptFnDef where
  name : String
  params : List String
  access : FnAccess
  fnId : Nat
  deriving DecidableEq, Repr

/-- `Module`: the tree node.  `Shared<Module>` becomes plain `Module`
(`shared_take_or_clone` is the identity under value semantics), and each
`HashMap` becomes an association list. -/
inductive Module where
  | mk
    (id : Option String)
    (modules : List (String × Module))
    (vars : List (String × Dynamic))
    (all_vars : List (Hash × Dynamic))
    (functions : List (Hash × FuncInfo))
    (all_functions : List (Hash × CallableFunction))
    (type_iterators : List (RTypeId × IteratorFn))
    (all_type_iterators : List (RTypeId × IteratorFn))
    (indexed : Bool)

/-- Field accessor for `Module.id`. -/
def Module.id : Module → Option String
  | .mk i _ _ _ _ _ _ _ _ => i

/-- Field accessor for `Module.modules`. -/
def Module.modules : Module → List (String × Module)
  | .mk _ ms _ _ _ _ _ _ _ => ms

/-- Field accessor for the `variables` table (named `vars` because `variables`
is a reserved token in Lean). -/
def Module.vars : Module → List (String × Dynamic)
  | .mk _ _ vs _ _ _ _ _ _ => vs

/-- Field accessor for `Module.all_variables`. -/
def Module.all_variables : Module → List (Hash × Dynamic)
  | .mk _ _ _ avs _ _ _ _ _ => avs

/-- Field accessor for `Module.functions`. -/
def Module.functions : Module → List (Hash × FuncInfo)
  | .mk _ _ _ _ fs _ _ _ _ => fs

/-- Field accessor for `Module.all_functions`. -/
def Module.all_functions : Module → List (Hash × CallableFunction)
  | .mk _ _ _ _ _ afs _ _ _ => afs

/-- Field accessor for `Module.type_iterators`. -/
def Module.type_iterators : Module → List (RTypeId × IteratorFn)
  | .mk _ _ _ _ _ _ tis _ _ => tis

/-- Field accessor for `Module.all_type_iterators`. -/
def Module.all_type_iterators : Module → List (RTypeId × IteratorFn)
  | .mk _ _ _ _ _ _ _ atis _ => atis

/-- `Module::is_indexed` (also the accessor for the `indexed` field). -/
def Module.is_indexed : Module → Bool
  | .mk _ _ _ _ _ _ _ _ idx => idx

/-- `Module::new` / `Module::default`: all tables empty, not indexed. -/
def Module.new : Module :=
  .mk none [] [] [] [] [] [] [] false

/-- `Module::set_var`: insert into `variables`, set `indexed = false`. -/
def Module.set_var : Module → String → Dynamic → Module
  | .mk i ms vs avs fs afs tis atis _, name, value =>
    .mk i ms (alInsert vs name value) avs fs afs tis atis false

/-- `Module::get_var`. -/
def Module.get_var (m : Module) (name : String) : Option Dynamic :=
  alGet m.vars name

/-- `Module::contains_var`. -/
def Module.contains_var (m : Module) (name : String) : Bool :=
  (alGet m.vars name).isSome

/-- `Module::get_qualified_var`: lookup in the flattened variable cache,
`ErrorVariableNotFound` on a miss. -/
def Module.get_qualified_var (m : Module) (hash_var : Hash) : Except String Dynamic :=
  match alGet m.all_variables hash_var with
  | some v => .ok v
  | none => .error "ErrorVariableNotFound"

/-- `Module::set_script_fn`: hash from (no qualifiers, name, number of
parameters); stored with `Internal` namespace, the function's declared
access, no parameter types, and a trailing "Dynamic" return-type
placeholder appended to the parameter names. -/
def Module.set_script_fn : Module → ScriptFnDef → Module × Hash
  | .mk i ms vs avs fs afs tis atis _, fn_def =>
    let num_params := fn_def.params.length
    let hash_script := calc_script_fn_hash [] fn_def.name num_params
    let param_names := fn_def.params ++ ["Dynamic"]
    (.mk i ms vs avs
      (alInsert fs hash_script
        { name := fn_def.name
          ns := FnNamespace.Internal
          access := fn_def.access
          params := num_params
          param_types := []
          param_names := param_names
          func := { fnId := fn_def.fnId, kind := CallKind.scriptFn } })
      afs tis atis false,
     hash_script)

/-- `Module::set_sub_module`: insert into `modules`, set `indexed = false`. -/
def Module.set_sub_module : Module → String → Module → Module
  | .mk i ms vs avs fs afs tis atis _, name, sub =>
    .mk i (alInsert ms name sub) vs avs fs afs tis atis false

/-- `Module::get_sub_module`. -/
def Module.get_sub_module (m : Module) (name : String) : Option Module :=
  alGet m.modules name

/-- `Module::contains_sub_module`. -/
def Module.contains_sub_module (m : Module) (name : String) : Bool :=
  (alGet m.modules name).isSome

/-- `Module::contains_fn`: `public_only = true` hides `Private` entries. -/
def Module.contains_fn (m : Module) (hash_fn : Hash) (public_only : Bool) : Bool :=
  if public_only then
    match alGet m.functions hash_fn with
    | some f => f.access.is_public
    | none => false
  else
    (alGet m.functions hash_fn).isSome

/-- `Module::get_fn`. -/
def Module.get_fn (m : Module) (hash_fn : Hash) (public_only : Bool) :
    Option CallableFunction :=
  match alGet m.functions hash_fn with
  | some f =>
    if public_only then (if f.access.is_public then some f.func else none)
    else some f.func
  | none => none

/-- `Module::update_fn_metadata`: replace `param_names` of the entry at
`hash_fn`, if present.  Does not touch `indexed`. -/
def Module.update_fn_metadata : Module → Hash → List String → Module
  | .mk i ms vs avs fs afs tis atis idx, hash_fn, arg_names =>
    .mk i ms vs avs
      (alUpdate fs hash_fn (fun f => { f with param_names := arg_names }))
      afs tis atis idx

/-- `Module::update_fn_namespace`: replace the namespace of the entry at
`hash_fn`, if present; unconditionally sets `indexed = false`. -/
def Module.update_fn_namespace : Module → Hash → FnNamespace → Module
  | .mk i ms vs avs fs afs tis atis _, hash_fn, nspace =>
    .mk i ms vs avs
      (alUpdate fs hash_fn (fun f => { f with ns := nspace }))
      afs tis atis false

/-- The string-type normalization closure inside `Module::set_fn`:
`&str` and `String` argument types are replaced by `ImmutableString`. -/
def normalize_string_param (idArg : RTypeId) : RTypeId :=
  if idArg = RTypeId.strRef ∨ idArg = RTypeId.string then RTypeId.immutableString
  else idArg

/-- `Module::set_fn`: the canonical low-level registration.  The hash is
computed by `calc_native_fn_hash` from the *raw* `arg_types`; the
normalization to `ImmutableString` applies only to the stored
`param_types`. -/
def Module.set_fn : Module → String → FnNamespace → FnAccess →
    Option (List String) → List RTypeId → CallableFunction → Module × Hash
  | .mk i ms vs avs fs afs tis atis _, name, nspace, access, arg_names, arg_types, func =>
    let hash_fn := calc_native_fn_hash [] name arg_types
    let param_types := arg_types.map normalize_string_param
    (.mk i ms vs avs
      (alInsert fs hash_fn
        { name := name
          ns := nspace
          access := access
          params := param_types.length
          param_types := param_types
          param_names := arg_names.getD []
          func := func })
      afs tis atis false,
     hash_fn)

/-- `Module::set_fn_2_mut`: method-form registration of a two-parameter
closure; the two Rust type parameters become explicit `RTypeId` arguments
and the closure an identity tag. -/
def Module.set_fn_2_mut (m : Module) (name : String) (nspace : FnNamespace)
    (tyA tyB : RTypeId) (fnId : Nat) : Module × Hash :=
  m.set_fn name nspace FnAccess.Public none [tyA, tyB]
    { fnId := fnId, kind := CallKind.methodFn }

/-- Modelled from the spec: the fixed reserved index-getter name
`crate::engine::FN_IDX_GET` (the spec calls it `index-get`); the constant
lives outside `src/module/mod.rs`. -/
def FN_IDX_GET : String := "index-get"

/-- Modelled from the spec: the fixed reserved index-setter name
`crate::engine::FN_IDX_SET` (the spec calls it `index-set`); the constant
lives outside `src/module/mod.rs`. -/
def FN_IDX_SET : String := "index-set"

/-- `Module::set_indexer_get_fn`: guards against `Array`, `Map` and the
string types (a Rust `panic!`, modelled as `Except.error`), then registers
via `set_fn_2_mut` under `FN_IDX_GET` with the `Global` namespace. -/
def Module.set_indexer_get_fn (m : Module) (tyA tyB : RTypeId) (fnId : Nat) :
    Except String (Module × Hash) :=
  if tyA = RTypeId.array then .error "Cannot register indexer for arrays."
  else if tyA = RTypeId.map then .error "Cannot register indexer for object maps."
  else if tyA = RTypeId.string ∨ tyA = RTypeId.strRef ∨ tyA = RTypeId.immutableString then
    .error "Cannot register indexer for strings."
  else
    .ok (m.set_fn_2_mut FN_IDX_GET FnNamespace.Global tyA tyB fnId)

/-- `Module::set_indexer_set_fn`: the same guards as the getter (a Rust
`panic!`, modelled as `Except.error`), then a direct `set_fn` under
`FN_IDX_SET` with the `Internal` namespace (the source passes
`FnNamespace::Internal`, not `Global`). -/
def Module.set_indexer_set_fn (m : Module) (tyA tyB tyC : RTypeId) (fnId : Nat) :
    Except String (Module × Hash) :=
  if tyA = RTypeId.array then .error "Cannot register indexer for arrays."
  else if tyA = RTypeId.map then .error "Cannot register indexer for object maps."
  else if tyA = RTypeId.string ∨ tyA = RTypeId.strRef ∨ tyA = RTypeId.immutableString then
    .error "Cannot register indexer for strings."
  else
    .ok (m.set_fn FN_IDX_SET FnNamespace.Internal FnAccess.Public none [tyA, tyB, tyC]
      { fnId := fnId, kind := CallKind.methodFn })

/-- `Module::contains_qualified_fn`: lookup only in the flattened cache. -/
def Module.contains_qualified_fn (m : Module) (hash_fn : Hash) : Bool :=
  (alGet m.all_functions hash_fn).isSome

/-- `Module::get_qualified_fn`: lookup only in the flattened cache. -/
def Module.get_qualified_fn (m : Module) (hash_qualified_fn : Hash) :
    Option CallableFunction :=
  alGet m.all_functions hash_qualified_fn

/-- `Module::set_iter`: insert into `type_iterators`, set `indexed = false`. -/
def Module.set_iter : Module → RTypeId → IteratorFn → Module
  | .mk i ms vs avs fs afs tis atis _, typ, func =>
    .mk i ms vs avs fs afs (alInsert tis typ func) atis false

/-- `Module::contains_qualified_iter`. -/
def Module.contains_qualified_iter (m : Module) (idArg : RTypeId) : Bool :=
  (alGet m.all_type_iterators idArg).isSome

/-- `Module::get_qualified_iter`. -/
def Module.get_qualified_iter (m : Module) (idArg : RTypeId) : Option IteratorFn :=
  alGet m.all_type_iterators idArg

/-- The tail of `Module::combine_flatten` after the recursive loop over
`other.modules`: extend `variables`, `functions` and `type_iterators` with
`other`'s direct tables, clear the three flattened caches, set
`indexed = false`. -/
def Module.combine_flatten_tail : Module → List (String × Dynamic) →
    List (Hash × FuncInfo) → List (RTypeId × IteratorFn) → Module
  | .mk i ms vs _ fs _ tis _ _, ovs, ofs, otis =>
    .mk i ms (alExtend vs ovs) [] (alExtend fs ofs) [] (alExtend tis otis) [] false

mutual

/-- `Module::combine_flatten`: first recursively flatten every sub-module of
`other` onto `self`, then overwrite-merge `other`'s own direct tables. -/
def Module.combine_flatten : Module → Module → Module
  | selfm, .mk _ oms ovs _ ofs _ otis _ _ =>
    Module.combine_flatten_tail (Module.combine_flatten_list selfm oms) ovs ofs otis

/-- The `other.modules.into_iter().for_each(...)` loop of
`Module::combine_flatten`. -/
def Module.combine_flatten_list : Module → List (String × Module) → Module
  | selfm, [] => selfm
  | selfm, (_, m) :: rest =>
    Module.combine_flatten_list (Module.combine_flatten selfm m) rest

end

/-- The predicate type of `Module::merge_filtered`:
`(namespace, access, is_script, name, number of parameters)`. -/
abbrev FnFilter := FnNamespace → FnAccess → Bool → String → Nat → Bool

/-- The tail of `Module::merge_filtered` after the loop over
`other.modules`: copy variables and iterators unconditionally, copy the
functions passing the predicate, clear the three flattened caches, set
`indexed = false`. -/
def Module.merge_filtered_tail : Module → List (String × Dynamic) →
    List (Hash × FuncInfo) → List (RTypeId × IteratorFn) → FnFilter → Module
  | .mk i ms vs _ fs _ tis _ _, ovs, ofs, otis, filt =>
    .mk i ms (alExtend vs ovs) []
      (alExtend fs (ofs.filter (fun p =>
        filt p.2.ns p.2.access p.2.func.is_script p.2.name p.2.params)))
      [] (alExtend tis otis) [] false

mutual

/-- `Module::merge_filtered` (the default, `no_function`-disabled path):
for every sub-module of `other`, a *fresh* module is built by
filter-merging that sub-module into `Module::new`, and `set_sub_module`
replaces whatever `self` had under that name; then `other`'s direct tables
are copied per the predicate. -/
def Module.merge_filtered : Module → Module → FnFilter → Module
  | selfm, .mk _ oms ovs _ ofs _ otis _ _, filt =>
    Module.merge_filtered_tail (Module.merge_filtered_list selfm oms filt) ovs ofs otis filt

/-- The `other.modules.iter().for_each(...)` loop of
`Module::merge_filtered`. -/
def Module.merge_filtered_list : Module → List (String × Module) → FnFilter → Module
  | selfm, [], _ => selfm
  | selfm, (k, v) :: rest, filt =>
    Module.merge_filtered_list
      (selfm.set_sub_module k (Module.merge_filtered Module.new v filt)) rest filt

end

/-- `Module::merge` = `merge_filtered` with an always-true predicate. -/
def Module.merge (selfm other : Module) : Module :=
  selfm.merge_filtered other (fun _ _ _ _ _ => true)

/-- The three accumulators threaded through `build_index`'s local
`index_module` helper. -/
structure IndexAcc where
  vars : List (Hash × Dynamic)
  functions : List (Hash × CallableFunction)
  type_iterators : List (RTypeId × IteratorFn)
  deriving Repr

/-- The variable-indexing loop of `index_module`: each variable is inserted
under `calc_script_fn_hash (qualifiers, name, 0)`. -/
def index_vars (qualifiers : List String) (vs : List (String × Dynamic))
    (acc : List (Hash × Dynamic)) : List (Hash × Dynamic) :=
  vs.foldl (fun a p => alInsert a (calc_script_fn_hash qualifiers p.1 0) p.2) acc

/-- The iterator-indexing loop of `index_module`: entries are copied by
type id, last writer wins. -/
def index_iters (tis : List (RTypeId × IteratorFn))
    (acc : List (RTypeId × IteratorFn)) : List (RTypeId × IteratorFn) :=
  tis.foldl (fun a p => alInsert a p.1 p.2) acc

/-- The function-indexing loop of `index_module`: private functions are
skipped; a `Global`-namespace function is additionally inserted under its
direct-table hash; a native function is inserted under the combination of
its qualified script-style hash with the native hash of its (normalized)
parameter types; a script function under the qualified script-style hash
alone. -/
def index_fns (qualifiers : List String) (fs : List (Hash × FuncInfo))
    (acc : List (Hash × CallableFunction)) : List (Hash × CallableFunction) :=
  (fs.filter (fun p => p.2.access.is_public)).foldl
    (fun a p =>
      let a := if p.2.ns.is_global then alInsert a p.1 p.2.func else a
      let hash_qualified_script := calc_script_fn_hash qualifiers p.2.name p.2.params
      if p.2.func.is_script then
        alInsert a hash_qualified_script p.2.func
      else
        alInsert a
          (combine_hashes hash_qualified_script
            (calc_native_fn_hash [] "" p.2.param_types))
          p.2.func)
    acc

mutual

/-- The local `index_module` helper of `Module::build_index`: depth-first,
sub-modules first, then the current node's variables, iterators and public
functions. -/
def index_module : Module → List String → IndexAcc → IndexAcc
  | .mk _ ms vs _ fs _ tis _ _, qualifiers, acc =>
    let acc := index_module_list ms qualifiers acc
    { vars := index_vars qualifiers vs acc.vars
      functions := index_fns qualifiers fs acc.functions
      type_iterators := index_iters tis acc.type_iterators }

/-- The sub-module loop of `index_module`: each sub-module is indexed with
its name pushed onto the qualifier stack. -/
def index_module_list : List (String × Module) → List String → IndexAcc → IndexAcc
  | [], _, acc => acc
  | (name, m) :: rest, qualifiers, acc =>
    index_module_list rest qualifiers (index_module m (qualifiers ++ [name]) acc)

end

/-- `Module::build_index`: a no-op when already indexed; otherwise rebuild
the three flattened caches from scratch by a full traversal seeded with the
synthetic qualifier `"root"`, then set `indexed = true`. -/
def Module.build_index : Module → Module
  | m@(.mk i ms vs _ fs _ tis _ idx) =>
    if idx then m
    else
      let acc := index_module m ["root"]
        { vars := [], functions := [], type_iterators := [] }
      .mk i ms vs acc.vars fs acc.functions tis acc.type_iterators true

end Rhai

namespace Rhai

/-- Lookup after insert at the same key: the inserted value is found. -/
theorem alGet_alInsert_self {α β : Type} [DecidableEq α] (l : List (α × β)) (k : α) (v : β) :
    alGet (alInsert l k v) k = some v := by
  induction l with
  | nil => simp [alInsert, alGet]
  | cons p rest ih =>
    obtain ⟨k', v'⟩ := p
    by_cases h : k' = k <;> simp [alInsert, alGet, h, ih]

/-- Lookup after insert at a different key: the insert is invisible. -/
theorem alGet_alInsert_ne {α β : Type} [DecidableEq α] (l : List (α × β)) (k k' : α) (v : β)
    (h : k ≠ k') : alGet (alInsert l k v) k' = alGet l k' := by
  induction l with
  | nil => simp [alInsert, alGet, h]
  | cons p rest ih =>
    obtain ⟨k1, v1⟩ := p
    by_cases h1 : k1 = k <;> simp [alInsert, alGet, h, h1, ih]

/-- Updating an absent key leaves the association list unchanged. -/
theorem alUpdate_of_none {α β : Type} [DecidableEq α] (l : List (α × β)) (k : α) (f : β → β)
    (h : alGet l k = none) : alUpdate l k f = l := by
  induction l with
  | nil => rfl
  | cons p rest ih =>
    obtain ⟨k1, v1⟩ := p
    by_cases h1 : k1 = k
    · subst h1; simp [alGet] at h
    · simp [alGet, h1] at h
      simp [alUpdate, h1, ih h]

/-- Claim C1, counterexample: the claim says every direct-table mutation clears
all three flattened caches so that stale flattened data is never observable.
In the code `set_var` (like `set_fn`, `set_script_fn`, `set_sub_module` and
`set_iter`) only sets `indexed = false`: after indexing a module with `x = 1`
and then setting `x = 2`, the flattened variable cache is *not* cleared and
`get_qualified_var` still observes the stale value `1`. -/
theorem C1_counterexample :
    ((Module.new.set_var "x" 1).build_index.set_var "x" 2).all_variables ≠ [] ∧
    ((Module.new.set_var "x" 1).build_index.set_var "x" 2).get_qualified_var
        (calc_script_fn_hash ["root"] "x" 0) = Except.ok 1 ∧
    ((Module.new.set_var "x" 1).build_index.set_var "x" 2).get_var "x" = some 2 :=
  ⟨by decide, rfl, rfl⟩

/-- Claim C1, amended: every direct-table mutation (`set_var`, `set_fn`,
`set_script_fn`, `set_sub_module`, `set_iter`) sets `indexed` to false, but
leaves all three flattened caches untouched; stale flattened data therefore
remains observable through the qualified accessors until `build_index` is
called again (callers must consult `is_indexed`). -/
theorem C1_direct_mutation_invalidation (m : Module) (name : String) (v : Dynamic)
    (sub : Module) (fname : String) (nspace : FnNamespace) (access : FnAccess)
    (arg_names : Option (List String)) (arg_types : List RTypeId)
    (func : CallableFunction) (fd : ScriptFnDef) (ty : RTypeId) (itf : IteratorFn) :
    ((m.set_var name v).is_indexed = false ∧
     (m.set_var name v).all_variables = m.all_variables ∧
     (m.set_var name v).all_functions = m.all_functions ∧
     (m.set_var name v).all_type_iterators = m.all_type_iterators) ∧
    (((m.set_fn fname nspace access arg_names arg_types func).1).is_indexed = false ∧
     ((m.set_fn fname nspace access arg_names arg_types func).1).all_variables = m.all_variables ∧
     ((m.set_fn fname nspace access arg_names arg_types func).1).all_functions = m.all_functions ∧
     ((m.set_fn fname nspace access arg_names arg_types func).1).all_type_iterators
        = m.all_type_iterators) ∧
    (((m.set_script_fn fd).1).is_indexed = false ∧
     ((m.set_script_fn fd).1).all_variables = m.all_variables ∧
     ((m.set_script_fn fd).1).all_functions = m.all_functions ∧
     ((m.set_script_fn fd).1).all_type_iterators = m.all_type_iterators) ∧
    ((m.set_sub_module name sub).is_indexed = false ∧
     (m.set_sub_module name sub).all_variables = m.all_variables ∧
     (m.set_sub_module name sub).all_functions = m.all_functions ∧
     (m.set_sub_module name sub).all_type_iterators = m.all_type_iterators) ∧
    ((m.set_iter ty itf).is_indexed = false ∧
     (m.set_iter ty itf).all_variables = m.all_variables ∧
     (m.set_iter ty itf).all_functions = m.all_functions ∧
     (m.set_iter ty itf).all_type_iterators = m.all_type_iterators) := by
  cases m with
  | mk i ms vs avs fs afs tis atis idx =>
    simp [Module.set_var, Module.set_fn, Module.set_script_fn, Module.set_sub_module,
      Module.set_iter, Module.is_indexed, Module.all_variables, Module.all_functions,
      Module.all_type_iterators]

/-- Claim C2, counterexample: with `R` holding sub-module `S` containing `x`
and `O` holding sub-module `S` containing `y`, the claim says the merged `R.S`
contains both; in the code `merge_filtered` replaces `R.S` by a fresh merge of
`O.S` into an empty module, so the result contains `y` but has lost `x`. -/
theorem C2_counterexample :
    ((((Module.new.set_sub_module "S" (Module.new.set_var "x" 1)).merge_filtered
        (Module.new.set_sub_module "S" (Module.new.set_var "y" 2))
        (fun _ _ _ _ _ => true)).get_sub_module "S").map
      (fun s => (s.contains_var "x", s.contains_var "y"))) = some (false, true) := by
  decide

/-- Claim C2, amended: `merge_filtered(R, O, p)` builds, for each sub-module
`S` of `O`, a fresh module by filter-merging `O.S` into an empty module and
installs it under the name `S`, *replacing* any existing `R.S`; the result is
independent of the previous contents of `R.S` (so `x` is lost and only `y`
survives). -/
theorem C2_merge_filtered_submodule_replaced (RS OS : Module) (p : FnFilter) :
    ((Module.new.set_sub_module "S" RS).merge_filtered
        (Module.new.set_sub_module "S" OS) p).get_sub_module "S"
      = some (Module.new.merge_filtered OS p) := by
  simp [Module.new, Module.set_sub_module, alInsert, Module.merge_filtered,
    Module.merge_filtered_list, Module.merge_filtered_tail, Module.get_sub_module,
    Module.modules, alGet, alExtend]

/-- Claim C3, counterexample: the claim says on a name collision between
different depths the deeper entry wins; in the code `combine_flatten` inserts
the deeper entries first and then overwrites them with the shallower direct
entries of `other`, so with `x = 20` one level down and `x = 10` at the top of
`other` the flattened result holds `10`, not `20`. -/
theorem C3_counterexample :
    (Module.new.combine_flatten
        ((Module.new.set_sub_module "m" (Module.new.set_var "x" 20)).set_var "x" 10)).get_var "x"
      = some 10 ∧
    (Module.new.combine_flatten
        ((Module.new.set_sub_module "m" (Module.new.set_var "x" 20)).set_var "x" 10)).get_var "x"
      ≠ some 20 :=
  ⟨rfl, by decide⟩

/-- Claim C3, amended: `combine_flatten(self, other)` surfaces all nested
contents of `other` directly onto `self` with no remaining qualification level
(`self.modules` is unchanged), and on a name collision between different
depths the entry from the *shallower* level wins over the deeper one (the
code's own comment: higher level overrides lower level); a deep entry with an
uncontested name does surface. -/
theorem C3_combine_flatten_shallower_wins (selfm : Module) (x y : String) (a b c : Dynamic) :
    (selfm.combine_flatten
        ((Module.new.set_sub_module "m"
          ((Module.new.set_var x b).set_var y c)).set_var x a)).get_var x
      = some a ∧
    (selfm.combine_flatten
        ((Module.new.set_sub_module "m"
          ((Module.new.set_var x b).set_var y c)).set_var x a)).modules
      = selfm.modules ∧
    (y ≠ x →
      (selfm.combine_flatten
        ((Module.new.set_sub_module "m"
          ((Module.new.set_var x b).set_var y c)).set_var x a)).get_var y
        = some c) := by
  cases selfm with
  | mk i ms vs avs fs afs tis atis idx =>
    refine ⟨?_, ?_, ?_⟩
    · simp [Module.new, Module.set_var, Module.set_sub_module, alInsert,
        Module.combine_flatten, Module.combine_flatten_list, Module.combine_flatten_tail,
        Module.get_var, Module.vars, alExtend, alGet_alInsert_self]
    · simp [Module.new, Module.set_var, Module.set_sub_module, alInsert,
        Module.combine_flatten, Module.combine_flatten_list, Module.combine_flatten_tail,
        Module.modules, alExtend]
    · intro hyx
      have hxy : ¬ x = y := fun hc => hyx hc.symm
      simp [Module.new, Module.set_var, Module.set_sub_module, alInsert, hxy,
        Module.combine_flatten, Module.combine_flatten_list, Module.combine_flatten_tail,
        Module.get_var, Module.vars, alExtend, alGet_alInsert_ne, alGet_alInsert_self]

/-- Witness for C3: the amended theorem evaluated at `x = "x"`, `y = "y"`,
shallow `10`, deep `20`, deep-only `30`. -/
theorem C3_witness :
    (Module.new.combine_flatten
        ((Module.new.set_sub_module "m"
          ((Module.new.set_var "x" 20).set_var "y" 30)).set_var "x" 10)).get_var "x"
      = some 10 ∧
    ("y" : String) ≠ "x" ∧
    (Module.new.combine_flatten
        ((Module.new.set_sub_module "m"
          ((Module.new.set_var "x" 20).set_var "y" 30)).set_var "x" 10)).get_var "y"
      = some 30 := by
  obtain ⟨h1, _, h3⟩ := C3_combine_flatten_shallower_wins Module.new "x" "y" 10 20 30
  exact ⟨h1, by decide, h3 (by decide)⟩

/-- Claim C4, counterexample: the claim says two `set_fn` registrations whose
argument type lists differ only in string representation return the same hash
and the second replaces the first; in the code the hash is computed from the
*raw* argument types before normalization, so `f(&str)` and
`f(ImmutableString)` get different hashes and the direct table ends up with
two coexisting entries. -/
theorem C4_counterexample :
    (Module.new.set_fn "f" FnNamespace.Internal FnAccess.Public none [RTypeId.strRef]
        { fnId := 1, kind := CallKind.pureFn }).2
      ≠ ((Module.new.set_fn "f" FnNamespace.Internal FnAccess.Public none [RTypeId.strRef]
            { fnId := 1, kind := CallKind.pureFn }).1.set_fn "f" FnNamespace.Internal
            FnAccess.Public none [RTypeId.immutableString]
            { fnId := 2, kind := CallKind.pureFn }).2 ∧
    ((Module.new.set_fn "f" FnNamespace.Internal FnAccess.Public none [RTypeId.strRef]
        { fnId := 1, kind := CallKind.pureFn }).1.set_fn "f" FnNamespace.Internal
        FnAccess.Public none [RTypeId.immutableString]
        { fnId := 2, kind := CallKind.pureFn }).1.functions.length = 2 := by
  decide

/-- Claim C4, amended: `set_fn` computes the returned native-style hash from
the raw argument type list before string normalization (only the stored
`param_types` are normalized), so two registrations with *any* two different
argument type lists — in particular lists differing only in string
representation — get distinct hashes and coexist in the direct table, the
first entry keeping its normalized parameter types. -/
theorem C4_set_fn_raw_hash_overloads (m : Module) (name : String) (nspace : FnNamespace)
    (access : FnAccess) (arg_names : Option (List String)) (ts1 ts2 : List RTypeId)
    (f1 f2 : CallableFunction) (hne : ts1 ≠ ts2) :
    (m.set_fn name nspace access arg_names ts1 f1).2
      ≠ ((m.set_fn name nspace access arg_names ts1 f1).1.set_fn name nspace access
          arg_names ts2 f2).2 ∧
    ((m.set_fn name nspace access arg_names ts1 f1).1.set_fn name nspace access
        arg_names ts2 f2).1.contains_fn (m.set_fn name nspace access arg_names ts1 f1).2 false
      = true ∧
    ((m.set_fn name nspace access arg_names ts1 f1).1.set_fn name nspace access
        arg_names ts2 f2).1.contains_fn
        ((m.set_fn name nspace access arg_names ts1 f1).1.set_fn name nspace access
          arg_names ts2 f2).2 false = true ∧
    (alGet ((m.set_fn name nspace access arg_names ts1 f1).1.set_fn name nspace access
        arg_names ts2 f2).1.functions (m.set_fn name nspace access arg_names ts1 f1).2).map
        FuncInfo.param_types
      = some (ts1.map normalize_string_param) := by
  have hh : calc_native_fn_hash [] name ts1 ≠ calc_native_fn_hash [] name ts2 := by
    simp [calc_native_fn_hash, hne]
  cases m with
  | mk i ms vs avs fs afs tis atis idx =>
    refine ⟨by simpa [Module.set_fn] using hh, ?_, ?_, ?_⟩
    · simp only [Module.set_fn, Module.contains_fn, Module.functions]
      rw [alGet_alInsert_ne _ _ _ _ (Ne.symm hh), alGet_alInsert_self]
      rfl
    · simp only [Module.set_fn, Module.contains_fn, Module.functions]
      rw [alGet_alInsert_self]
      rfl
    · simp only [Module.set_fn, Module.functions]
      rw [alGet_alInsert_ne _ _ _ _ (Ne.symm hh), alGet_alInsert_self]
      rfl

/-- Witness for C4: the amended theorem evaluated at name `"f"`, raw string
reference versus immutable-string argument types. -/
theorem C4_witness :
    (Module.new.set_fn "f" FnNamespace.Internal FnAccess.Public none [RTypeId.strRef]
        { fnId := 1, kind := CallKind.pureFn }).2
      ≠ ((Module.new.set_fn "f" FnNamespace.Internal FnAccess.Public none [RTypeId.strRef]
            { fnId := 1, kind := CallKind.pureFn }).1.set_fn "f" FnNamespace.Internal
            FnAccess.Public none [RTypeId.immutableString]
            { fnId := 2, kind := CallKind.pureFn }).2 ∧
    ((Module.new.set_fn "f" FnNamespace.Internal FnAccess.Public none [RTypeId.strRef]
        { fnId := 1, kind := CallKind.pureFn }).1.set_fn "f" FnNamespace.Internal
        FnAccess.Public none [RTypeId.immutableString]
        { fnId := 2, kind := CallKind.pureFn }).1.contains_fn
        (Module.new.set_fn "f" FnNamespace.Internal FnAccess.Public none [RTypeId.strRef]
          { fnId := 1, kind := CallKind.pureFn }).2 false = true ∧
    ((Module.new.set_fn "f" FnNamespace.Internal FnAccess.Public none [RTypeId.strRef]
        { fnId := 1, kind := CallKind.pureFn }).1.set_fn "f" FnNamespace.Internal
        FnAccess.Public none [RTypeId.immutableString]
        { fnId := 2, kind := CallKind.pureFn }).1.contains_fn
        ((Module.new.set_fn "f" FnNamespace.Internal FnAccess.Public none [RTypeId.strRef]
            { fnId := 1, kind := CallKind.pureFn }).1.set_fn "f" FnNamespace.Internal
            FnAccess.Public none [RTypeId.immutableString]
            { fnId := 2, kind := CallKind.pureFn }).2 false = true ∧
    (alGet ((Module.new.set_fn "f" FnNamespace.Internal FnAccess.Public none [RTypeId.strRef]
        { fnId := 1, kind := CallKind.pureFn }).1.set_fn "f" FnNamespace.Internal
        FnAccess.Public none [RTypeId.immutableString]
        { fnId := 2, kind := CallKind.pureFn }).1.functions
        (Module.new.set_fn "f" FnNamespace.Internal FnAccess.Public none [RTypeId.strRef]
          { fnId := 1, kind := CallKind.pureFn }).2).map FuncInfo.param_types
      = some ([RTypeId.strRef].map normalize_string_param) :=
  C4_set_fn_raw_hash_overloads Module.new "f" FnNamespace.Internal FnAccess.Public none
    [RTypeId.strRef] [RTypeId.immutableString]
    { fnId := 1, kind := CallKind.pureFn } { fnId := 2, kind := CallKind.pureFn }
    (by decide)

end Rhai

namespace Rhai

/-- Claim C5, counterexample: the claim says both indexer registrations store
their `FuncInfo` with the `Global` namespace; in the code
`set_indexer_set_fn` passes `FnNamespace::Internal` to `set_fn`, so the
stored setter entry has the `Internal` namespace. -/
theorem C5_counterexample :
    ((Module.new.set_indexer_set_fn (RTypeId.other 0) RTypeId.int RTypeId.int 7).toOption.map
      (fun r => (alGet r.1.functions r.2).map (fun f => f.ns)))
      = some (some FnNamespace.Internal) ∧
    FnNamespace.Internal ≠ FnNamespace.Global :=
  ⟨rfl, by decide⟩

/-- Claim C5, amended: for a non-reserved receiver type, `set_indexer_get_fn`
registers its function under the fixed reserved index-get name with the
`Global` namespace, while `set_indexer_set_fn` registers under the fixed
reserved index-set name with the `Internal` namespace (so only the getter
resolves without qualification after indexing). -/
theorem C5_indexer_names_and_namespaces (m : Module) (tyA tyB tyC : RTypeId) (gid sid : Nat)
    (hA : ¬(tyA = RTypeId.array ∨ tyA = RTypeId.map ∨ tyA = RTypeId.string ∨
            tyA = RTypeId.strRef ∨ tyA = RTypeId.immutableString)) :
    ((m.set_indexer_get_fn tyA tyB gid).toOption.map
        (fun r => (alGet r.1.functions r.2).map (fun f => (f.name, f.ns))))
      = some (some (FN_IDX_GET, FnNamespace.Global)) ∧
    ((m.set_indexer_set_fn tyA tyB tyC sid).toOption.map
        (fun r => (alGet r.1.functions r.2).map (fun f => (f.name, f.ns))))
      = some (some (FN_IDX_SET, FnNamespace.Internal)) := by
  rw [not_or, not_or, not_or, not_or] at hA
  obtain ⟨h1, h2, h3, h4, h5⟩ := hA
  cases m with
  | mk i ms vs avs fs afs tis atis idx =>
    constructor
    · simp [Module.set_indexer_get_fn, Module.set_fn_2_mut, Module.set_fn,
        h1, h2, h3, h4, h5, Except.toOption, Module.functions, alGet_alInsert_self]
    · simp [Module.set_indexer_set_fn, Module.set_fn,
        h1, h2, h3, h4, h5, Except.toOption, Module.functions, alGet_alInsert_self]

/-- Witness for C5: the amended theorem evaluated at the non-reserved receiver
type `other 0`. -/
theorem C5_witness :
    ((Module.new.set_indexer_get_fn (RTypeId.other 0) RTypeId.int 1).toOption.map
        (fun r => (alGet r.1.functions r.2).map (fun f => (f.name, f.ns))))
      = some (some (FN_IDX_GET, FnNamespace.Global)) ∧
    ((Module.new.set_indexer_set_fn (RTypeId.other 0) RTypeId.int RTypeId.int 2).toOption.map
        (fun r => (alGet r.1.functions r.2).map (fun f => (f.name, f.ns))))
      = some (some (FN_IDX_SET, FnNamespace.Internal)) :=
  C5_indexer_names_and_namespaces Module.new (RTypeId.other 0) RTypeId.int RTypeId.int 1 2
    (by decide)

/-- Claim C6: after `build_index` on a root with a sub-module named `s`
holding one public native function: with the `Global` namespace the function
is retrievable through `get_qualified_fn` both under the combined qualified
hash and under its bare direct-table hash; with the `Internal` namespace only
under the qualified hash; and a `Private` function is in the flattened table
under neither hash. -/
theorem C6_build_index_visibility (s fname : String) (ts : List RTypeId) (fid : Nat) :
    let func : CallableFunction := { fnId := fid, kind := CallKind.methodFn }
    let qual := combine_hashes (calc_script_fn_hash ["root", s] fname ts.length)
                  (calc_native_fn_hash [] "" (ts.map normalize_string_param))
    let bare := calc_native_fn_hash [] fname ts
    let rootG := (Module.new.set_sub_module s
        ((Module.new.set_fn fname FnNamespace.Global FnAccess.Public none ts func).1)).build_index
    let rootI := (Module.new.set_sub_module s
        ((Module.new.set_fn fname FnNamespace.Internal FnAccess.Public none ts func).1)).build_index
    let rootP := (Module.new.set_sub_module s
        ((Module.new.set_fn fname FnNamespace.Internal FnAccess.Private none ts func).1)).build_index
    (rootG.get_qualified_fn qual = some func ∧ rootG.get_qualified_fn bare = some func) ∧
    (rootI.get_qualified_fn qual = some func ∧ rootI.get_qualified_fn bare = none) ∧
    (rootP.get_qualified_fn qual = none ∧ rootP.get_qualified_fn bare = none) := by
  simp [Module.new, Module.set_fn, Module.set_sub_module, Module.build_index,
    index_module, index_module_list, index_vars, index_fns, index_iters,
    Module.get_qualified_fn, Module.all_functions, alInsert, alGet, alExtend,
    FnAccess.is_public, FnNamespace.is_global,
    CallableFunction.is_script, calc_native_fn_hash, calc_script_fn_hash, combine_hashes]

/-- Claim C7: `build_index` is idempotent — on an already-indexed module it is
the identity, and two consecutive calls produce the same module (flattened
tables included) as a single call. -/
theorem C7_build_index_idempotent (m : Module) :
    (m.is_indexed = true → m.build_index = m) ∧
    m.build_index.build_index = m.build_index := by
  cases m with
  | mk i ms vs avs fs afs tis atis idx =>
    constructor
    · intro h
      simp [Module.is_indexed] at h
      subst h
      simp [Module.build_index]
    · cases idx <;> simp [Module.build_index]

/-- Witness for C7: the already-indexed empty module satisfies the hypothesis
and `build_index` leaves it unchanged. -/
theorem C7_witness :
    Module.new.build_index.is_indexed = true ∧
    Module.new.build_index.build_index = Module.new.build_index :=
  ⟨by decide, (C7_build_index_idempotent Module.new.build_index).1 (by decide)⟩

/-- Claim C8: `build_index` reports `is_indexed = true`, and each single
subsequent `set_var`, `set_fn`, `set_sub_module` or `update_fn_namespace`
call makes `is_indexed` report false (and nothing but `build_index` sets it
back, as every mutator in this development only ever writes `false`). -/
theorem C8_mutation_unsets_indexed (m : Module) (name : String) (v : Dynamic) (sub : Module)
    (fname : String) (nspace : FnNamespace) (access : FnAccess)
    (arg_names : Option (List String)) (arg_types : List RTypeId) (func : CallableFunction)
    (h : Hash) (nspace2 : FnNamespace) :
    m.build_index.is_indexed = true ∧
    (m.build_index.set_var name v).is_indexed = false ∧
    ((m.build_index.set_fn fname nspace access arg_names arg_types func).1).is_indexed = false ∧
    (m.build_index.set_sub_module name sub).is_indexed = false ∧
    (m.build_index.update_fn_namespace h nspace2).is_indexed = false := by
  have hidx : m.build_index.is_indexed = true := by
    cases m with
    | mk i ms vs avs fs afs tis atis idx =>
      cases idx <;> simp [Module.build_index, Module.is_indexed]
  refine ⟨hidx, ?_, ?_, ?_, ?_⟩ <;>
    (generalize m.build_index = M
     cases M with
     | mk i ms vs avs fs afs tis atis idx =>
       simp [Module.set_var, Module.set_fn, Module.set_sub_module,
         Module.update_fn_namespace, Module.is_indexed])

/-- Claim C9: for a receiver type equal to the built-in sequence type, the
key/value-map type, or any of the three string types, `set_indexer_get_fn`
and `set_indexer_set_fn` fail fatally (the Rust `panic!`, modelled as
`Except.error`) before any registration side effect: no updated module is
produced at all, so every table and the indexed flag stay untouched. -/
theorem C9_indexer_guard_fatal (m : Module) (tyA tyB tyC : RTypeId) (gid sid : Nat)
    (hA : tyA = RTypeId.array ∨ tyA = RTypeId.map ∨ tyA = RTypeId.string ∨
          tyA = RTypeId.strRef ∨ tyA = RTypeId.immutableString) :
    (∃ e, m.set_indexer_get_fn tyA tyB gid = Except.error e) ∧
    (∃ e, m.set_indexer_set_fn tyA tyB tyC sid = Except.error e) := by
  rcases hA with hc | hc | hc | hc | hc <;> subst hc <;>
    exact ⟨⟨_, rfl⟩, ⟨_, rfl⟩⟩

/-- Witness for C9: the guard theorem evaluated at the sequence (array)
receiver type. -/
theorem C9_witness :
    (∃ e, Module.new.set_indexer_get_fn RTypeId.array RTypeId.int 1 = Except.error e) ∧
    (∃ e, Module.new.set_indexer_set_fn RTypeId.array RTypeId.int RTypeId.int 2
        = Except.error e) :=
  C9_indexer_guard_fatal Module.new RTypeId.array RTypeId.int RTypeId.int 1 2 (Or.inl rfl)

/-- Claim C10: for a hash absent from the direct function table,
`update_fn_metadata` leaves the module completely unchanged (indexed flag
included), while `update_fn_namespace` leaves every table unchanged but still
sets `indexed` to false. -/
theorem C10_update_missing_hash_frame (m : Module) (h : Hash) (names : List String)
    (nspace : FnNamespace) (habs : alGet m.functions h = none) :
    m.update_fn_metadata h names = m ∧
    (m.update_fn_namespace h nspace).modules = m.modules ∧
    (m.update_fn_namespace h nspace).vars = m.vars ∧
    (m.update_fn_namespace h nspace).functions = m.functions ∧
    (m.update_fn_namespace h nspace).type_iterators = m.type_iterators ∧
    (m.update_fn_namespace h nspace).all_variables = m.all_variables ∧
    (m.update_fn_namespace h nspace).all_functions = m.all_functions ∧
    (m.update_fn_namespace h nspace).all_type_iterators = m.all_type_iterators ∧
    (m.update_fn_namespace h nspace).is_indexed = false := by
  cases m with
  | mk i ms vs avs fs afs tis atis idx =>
    simp only [Module.functions] at habs
    have h1 := alUpdate_of_none fs h (fun f => { f with param_names := names }) habs
    have h2 := alUpdate_of_none fs h (fun f => { f with ns := nspace }) habs
    simp [Module.update_fn_metadata, Module.update_fn_namespace, h1, h2,
      Module.modules, Module.vars, Module.functions, Module.type_iterators,
      Module.all_variables, Module.all_functions, Module.all_type_iterators,
      Module.is_indexed]

/-- Witness for C10: the frame theorem evaluated on the empty module at an
arbitrary hash, whose direct function table trivially misses it. -/
theorem C10_witness :
    Module.new.update_fn_metadata (Hash.script [] "f" 0) ["a"] = Module.new ∧
    (Module.new.update_fn_namespace (Hash.script [] "f" 0) FnNamespace.Global).modules
      = Module.new.modules ∧
    (Module.new.update_fn_namespace (Hash.script [] "f" 0) FnNamespace.Global).vars
      = Module.new.vars ∧
    (Module.new.update_fn_namespace (Hash.script [] "f" 0) FnNamespace.Global).functions
      = Module.new.functions ∧
    (Module.new.update_fn_namespace (Hash.script [] "f" 0) FnNamespace.Global).type_iterators
      = Module.new.type_iterators ∧
    (Module.new.update_fn_namespace (Hash.script [] "f" 0) FnNamespace.Global).all_variables
      = Module.new.all_variables ∧
    (Module.new.update_fn_namespace (Hash.script [] "f" 0) FnNamespace.Global).all_functions
      = Module.new.all_functions ∧
    (Module.new.update_fn_namespace (Hash.script [] "f" 0) FnNamespace.Global).all_type_iterators
      = Module.new.all_type_iterators ∧
    (Module.new.update_fn_namespace (Hash.script [] "f" 0) FnNamespace.Global).is_indexed
      = false :=
  C10_update_missing_hash_frame Module.new (Hash.script [] "f" 0) ["a"] FnNamespace.Global rfl

end Rhai
